import Mathlib

/-!
Shallow embedding of the `stock_location_orderpoint` and
`stock_request_purchase` modules of the cibex/stock-logistics-warehouse
repository, together with theorems settling the frozen claims about them.

Modelling conventions:
* Products, locations, companies, warehouses and records in general are
  identified by their database ids (`Nat`).
* Monetary/stock quantities are embedded as exact rationals (`ℚ`); the
  source's `float_compare(x, y, precision_rounding=...)` tests are embedded
  as exact comparisons on `ℚ`.
* ORM reads (`_product_available`, `read_group` over stock moves, `search`)
  are abstracted as explicitly passed environment functions: `_compute_quantities_dict`
  becomes a function `Nat → Nat → ProductQty` (location id → product id →
  quantities dict) and `_find_potential_moves_to_replenish_by_location`
  becomes a function `Nat → Option (List Nat)` (location id → product ids of
  the waiting moves found there, when any).
* Selection field values (`replenish_method`, `trigger`, workflow states)
  are embedded as the strings the source uses.
-/

namespace StockLocationOrderpoint

/-- The entries of the per-product dictionary returned by
`product.product._product_available()` that the orderpoint code reads. -/
structure ProductQty where
  virtual_available : ℚ
  incoming_qty : ℚ
deriving DecidableEq

/-- A rule of a stock location route; only the destination location
(`location_id`) is read by this module. -/
structure StockRule where
  location_id : Nat
deriving DecidableEq

/-- A stock location route: `rule_ids` with their destination locations. -/
structure StockLocationRoute where
  rule_ids : List StockRule
deriving DecidableEq

/-- The `stock.location.orderpoint` record, restricted to the fields the
embedded methods read.  `location_src_id` is a stored compute
(`_compute_location_src_id`) whose value comes from
`stock.location._get_source_location_from_route` (outside this repository),
so it is kept as a plain field here. -/
structure Orderpoint where
  id : Nat
  name : String
  location_id : Nat
  location_src_id : Option Nat
  replenish_method : String
  trigger : String
  route_id : Option StockLocationRoute
  priority : Nat
  sequence : Int
deriving DecidableEq

/-- Embedding of `_get_qty_to_replenish_fill_up` (stock_location_orderpoint.py lines
225-257): 0 without a source location; 0 when the destination forecast is
non-negative; 0 when the source availability (virtual minus incoming) is
non-positive; otherwise the absolute destination deficit minus the quantity
already replenished, capped by the source availability. -/
def _get_qty_to_replenish_fill_up (self : Orderpoint) (product : Nat)
    (qties_on_locations : Nat → Nat → ProductQty)
    (qty_already_replenished : ℚ) : ℚ :=
  match self.location_src_id with
  | none => 0
  | some src =>
    let qties_on_dest := qties_on_locations self.location_id product
    let virtual_available_on_dest := qties_on_dest.virtual_available
    if 0 ≤ virtual_available_on_dest then 0
    else
      let deficit_on_dest := |virtual_available_on_dest|
      let qties_on_src := qties_on_locations src product
      let virtual_available_on_src :=
        qties_on_src.virtual_available - qties_on_src.incoming_qty
      if virtual_available_on_src ≤ 0 then 0
      else min (deficit_on_dest - qty_already_replenished) virtual_available_on_src

/-- Embedding of `_get_qty_to_replenish` (lines 210-223): dispatch on
`replenish_method`, defaulting to 0. -/
def _get_qty_to_replenish (self : Orderpoint) (product : Nat)
    (qties_on_locations : Nat → Nat → ProductQty)
    (qty_already_replenished : ℚ) : ℚ :=
  if self.replenish_method = "fill_up" then
    _get_qty_to_replenish_fill_up self product qties_on_locations
      qty_already_replenished
  else 0

/-- The spec's stated quantity-reconciliation formula, written from the
spec's words alone (for comparison with `_get_qty_to_replenish_fill_up`):
"target stock level minus already-replenished minus available-at-source,
clamped to zero", where the target stock level is 0 so the quantity needed
to reach it is `0 - virtual_available` at the destination. -/
def spec_fill_up_formula (self : Orderpoint) (product : Nat)
    (qties_on_locations : Nat → Nat → ProductQty)
    (qty_already_replenished : ℚ) : ℚ :=
  match self.location_src_id with
  | none => 0
  | some src =>
    let target : ℚ := 0
    let needed := target - (qties_on_locations self.location_id product).virtual_available
    let qties_on_src := qties_on_locations src product
    let available_at_src :=
      qties_on_src.virtual_available - qties_on_src.incoming_qty
    max 0 (needed - qty_already_replenished - available_at_src)

/-- Pointwise update of the `qties_replenished` nested defaultdict
(location id → product id → quantity already replenished). -/
def updateReplenished (m : Nat → Nat → ℚ) (loc product : Nat) (v : ℚ) :
    Nat → Nat → ℚ :=
  fun l p => if l = loc then (if p = product then v else m l p) else m l p

/-- The inner loop of `_get_qties_to_replenish` (lines 273-289): for one
orderpoint, walk the products of the waiting moves at its location,
computing each quantity with the quantity already replenished at that
location, and record the strictly positive ones, accumulating them into the
`qties_replenished` map. -/
def replenishProducts (orderpoint : Orderpoint)
    (qties_on_locations : Nat → Nat → ProductQty) (products : List Nat)
    (qties_replenished : Nat → Nat → ℚ) :
    (Nat → Nat → ℚ) × List (Nat × ℚ) :=
  match products with
  | [] => (qties_replenished, [])
  | product :: rest =>
    let already := qties_replenished orderpoint.location_id product
    let qty_to_replenish :=
      _get_qty_to_replenish orderpoint product qties_on_locations already
    if 0 < qty_to_replenish then
      let m := updateReplenished qties_replenished orderpoint.location_id
        product (already + qty_to_replenish)
      let res := replenishProducts orderpoint qties_on_locations rest m
      (res.1, (product, qty_to_replenish) :: res.2)
    else
      replenishProducts orderpoint qties_on_locations rest qties_replenished

/-- The outer loop of `_get_qties_to_replenish` (lines 269-290): walk the
orderpoints, skipping those whose location has no waiting moves; an
orderpoint becomes a key of the result exactly when at least one pair was
appended for it (`defaultdict(list)` creates keys lazily). -/
def replenishLoop (qties_on_locations : Nat → Nat → ProductQty)
    (moves_by_location : Nat → Option (List Nat)) :
    List Orderpoint → (Nat → Nat → ℚ) →
    (Nat → Nat → ℚ) × List (Orderpoint × List (Nat × ℚ))
  | [], m => (m, [])
  | orderpoint :: rest, m =>
    match moves_by_location orderpoint.location_id with
    | none => replenishLoop qties_on_locations moves_by_location rest m
    | some products =>
      let step := replenishProducts orderpoint qties_on_locations products m
      let res := replenishLoop qties_on_locations moves_by_location rest step.1
      if step.2.isEmpty then res
      else (res.1, (orderpoint, step.2) :: res.2)

/-- Embedding of `_get_qties_to_replenish` (lines 259-290), with the quantities dict and
the waiting-moves grouping passed as environment functions; the
`qties_replenished` defaultdict starts at 0 everywhere. -/
def _get_qties_to_replenish (self : List Orderpoint)
    (qties_on_locations : Nat → Nat → ProductQty)
    (moves_by_location : Nat → Option (List Nat)) :
    List (Orderpoint × List (Nat × ℚ)) :=
  (replenishLoop qties_on_locations moves_by_location self fun _ _ => 0).2

/-- The destination deficit of a product at a location: the amount by which
the forecast (virtual available) quantity is below zero, and 0 when the
forecast is non-negative. -/
def deficitOn (qties_on_locations : Nat → Nat → ProductQty)
    (loc product : Nat) : ℚ :=
  max 0 (0 - (qties_on_locations loc product).virtual_available)

/-- Embedding of `_check_location_id_route_id` (lines 95-111): a `ValidationError` is
raised for the first orderpoint that has a route none of whose rules has the
orderpoint's location as destination location; orderpoints without a route,
or whose location is among the route's rules' destination locations, are
skipped. -/
def _check_location_id_route_id (self : List Orderpoint) :
    Except String Unit :=
  match self with
  | [] => Except.ok ()
  | orderpoint :: rest =>
    match orderpoint.route_id with
    | none => _check_location_id_route_id rest
    | some route =>
      if orderpoint.location_id ∈ route.rule_ids.map StockRule.location_id then
        _check_location_id_route_id rest
      else
        Except.error
          "The selected route must contain a rule where the Destination Location is the orderpoint location"

/-- The procurement tuple built by `_prepare_procurement` (lines 124-141)
together with the `location_orderpoint_id` of
`_prepare_procurement_values` (lines 143-152); the planned date comes from
the waiting moves (`_get_location_orderpoint_replenishment_date`, outside
this repository) and is not modelled. -/
structure Procurement where
  product_id : Nat
  product_qty : ℚ
  location_id : Nat
  origin : String
  location_orderpoint_id : Nat
deriving DecidableEq

/-- Embedding of `_prepare_procurement` (lines 124-141). -/
def _prepare_procurement (self : Orderpoint) (product : Nat) (qty : ℚ) :
    Procurement :=
  { product_id := product
    product_qty := qty
    location_id := self.location_id
    origin := self.name
    location_orderpoint_id := self.id }

/-- The model's `_order = "priority desc, sequence"` comparison used by
`_sort_orderpoints` (lines 196-197, `self.sorted()`). -/
def orderpointLE (a b : Orderpoint) : Bool :=
  b.priority < a.priority || (a.priority = b.priority && a.sequence ≤ b.sequence)

/-- Stable insertion of an orderpoint into a list sorted by `orderpointLE`. -/
def insertOrderpoint (a : Orderpoint) : List Orderpoint → List Orderpoint
  | [] => [a]
  | b :: rest =>
    if orderpointLE a b then a :: b :: rest else b :: insertOrderpoint a rest

/-- Embedding of `_sort_orderpoints` (lines 196-197): `self.sorted()`, i.e. a stable
sort by priority descending then sequence. -/
def _sort_orderpoints : List Orderpoint → List Orderpoint
  | [] => []
  | a :: rest => insertOrderpoint a (_sort_orderpoints rest)

/-- The ORM environment: the quantity dictionaries read by
`_compute_quantities_dict`, the grouping of waiting moves computed by
`_find_potential_moves_to_replenish_by_location` (as a function of the
optional product filter), and the `parent_of` relation of the location
hierarchy used by the orderpoint search domain. -/
structure OrmEnv where
  qties_on_locations : Nat → Nat → ProductQty
  moves_by_location : Option (List Nat) → Nat → Option (List Nat)
  is_parent_of : Nat → List Nat → Bool

/-- Embedding of `_find_potential_moves_to_replenish_by_location` (lines 177-194),
abstracted as the environment's waiting-move grouping under the given
product filter. -/
def _find_potential_moves_to_replenish_by_location (env : OrmEnv)
    (products : Option (List Nat)) : Nat → Option (List Nat) :=
  env.moves_by_location products

/-- Embedding of `__prepare_procurements` (lines 292-308): one procurement per
(product, quantity) pair returned by `_get_qties_to_replenish`. -/
def __prepare_procurements (self : List Orderpoint)
    (qties_on_locations : Nat → Nat → ProductQty)
    (moves_by_location : Nat → Option (List Nat)) : List Procurement :=
  (_get_qties_to_replenish self qties_on_locations moves_by_location).flatMap
    fun entry => entry.2.map fun pq => _prepare_procurement entry.1 pq.1 pq.2

/-- Embedding of `_prepare_procurements` (lines 310-314). -/
def _prepare_procurements (self : List Orderpoint) (env : OrmEnv)
    (products : Option (List Nat)) : List Procurement :=
  __prepare_procurements (_sort_orderpoints self) env.qties_on_locations
    (_find_potential_moves_to_replenish_by_location env products)

/-- The externally visible effects of a replenishment run: a
`procurement.group.run` over the prepared procurements, and the
`_action_assign` pass of `_assign_replenishment_moves` over the moves of
the given orderpoints. -/
inductive Effect where
  | procurement_group_run (procurements : List Procurement)
  | assign_moves (orderpoint_ids : List Nat)
deriving DecidableEq

/-- Embedding of `_assign_replenishment_moves` (lines 335-342), as the effect it
performs. -/
def _assign_replenishment_moves (self : List Orderpoint) : List Effect :=
  [Effect.assign_moves (self.map Orderpoint.id)]

/-- Embedding of `_after_replenishment` (lines 344-345). -/
def _after_replenishment (self : List Orderpoint) : List Effect :=
  _assign_replenishment_moves self

/-- Embedding of `run_replenishment` (lines 316-324), as the list of effects it
performs: nothing when no procurements were prepared, otherwise the
procurement run followed by `_after_replenishment`. -/
def run_replenishment (self : List Orderpoint) (env : OrmEnv)
    (products : Option (List Nat)) : List Effect :=
  let procurements := _prepare_procurements self env products
  if procurements = [] then []
  else Effect.procurement_group_run procurements :: _after_replenishment self

/-- The location part of the orderpoint search domain (lines 347-374):
`(location_field, "parent_of", ids)` where an unset `location_field`
(modelled as `""`) defaults to `location_id`. -/
def orderpointLocationMatches (env : OrmEnv) (orderpoint : Orderpoint)
    (locations : List Nat) (location_field : String) : Bool :=
  let field := if location_field = "" then "location_id" else location_field
  match (if field = "location_src_id" then orderpoint.location_src_id
         else some orderpoint.location_id) with
  | none => false
  | some loc => env.is_parent_of loc locations

/-- Embedding of `_get_orderpoints` (lines 376-380): filter by trigger, and by the
location domain when a non-empty location list is given. -/
def _get_orderpoints (self : List Orderpoint) (env : OrmEnv)
    (trigger : String) (locations : List Nat) (location_field : String) :
    List Orderpoint :=
  self.filter fun orderpoint =>
    orderpoint.trigger = trigger &&
      (locations.isEmpty ||
        orderpointLocationMatches env orderpoint locations location_field)

/-- Embedding of `run_auto_replenishment` (lines 395-408): nothing at all when the given
locations or products are empty; otherwise run the replenishment for the
auto orderpoints selected by the location domain. -/
def run_auto_replenishment (self : List Orderpoint) (env : OrmEnv)
    (products : List Nat) (locations : List Nat) (location_field : String) :
    List Effect :=
  if locations.isEmpty || products.isEmpty then []
  else
    run_replenishment (_get_orderpoints self env "auto" locations location_field)
      env (some products)

end StockLocationOrderpoint

namespace StockRequestPurchase

/-- Modelled from the spec: the stock-request side of the
"stock-request-to-purchase linkage inside an ERP's warehouse module"; the
`stock_request_purchase` module's model code is not among the sources (only
its test suite is), so the record is reconstructed from the spec's words and
the fields its tests read. -/
structure StockRequest where
  id : Nat
  product_id : Nat
  company_id : Nat
  warehouse_id : Nat
  location_id : Nat
  product_uom_qty : ℚ
  state : String
  order_id : Option Nat
deriving DecidableEq

/-- Modelled from the spec: a purchase order line of the
stock-request-to-purchase linkage, carrying the requests linked to it. -/
structure PurchaseOrderLine where
  product_id : Nat
  product_qty : ℚ
  stock_request_ids : List Nat
deriving DecidableEq

/-- Modelled from the spec: a purchase order of the
stock-request-to-purchase linkage. -/
structure PurchaseOrder where
  id : Nat
  company_id : Nat
  warehouse_id : Nat
  state : String
  order_line : List PurchaseOrderLine
deriving DecidableEq

/-- Modelled from the spec: a stock request order grouping stock requests;
its state follows the states of its requests. -/
structure StockRequestOrder where
  id : Nat
  state : String
  stock_request_ids : List Nat
deriving DecidableEq

/-- Modelled from the spec: the persistent state the
stock-request-to-purchase linkage acts on; `next_purchase_id` supplies
fresh ids for newly generated purchase orders. -/
structure SrpState where
  requests : List StockRequest
  purchases : List PurchaseOrder
  orders : List StockRequestOrder
  next_purchase_id : Nat
deriving DecidableEq

/-- Modelled from the spec: merging a confirmed stock request onto a draft
purchase order — an existing line for the same product absorbs the
requested quantity and the request link, otherwise a new line is appended. -/
def addRequestToPurchase (po : PurchaseOrder) (r : StockRequest) :
    PurchaseOrder :=
  if po.order_line.any (fun l => l.product_id = r.product_id) then
    { po with
        order_line := po.order_line.map fun l =>
          if l.product_id = r.product_id then
            { l with
                product_qty := l.product_qty + r.product_uom_qty
                stock_request_ids := l.stock_request_ids ++ [r.id] }
          else l }
  else
    { po with
        order_line := po.order_line ++
          [{ product_id := r.product_id
             product_qty := r.product_uom_qty
             stock_request_ids := [r.id] }] }

/-- Modelled from the spec: the buy rule run of a confirmed request — the
first purchase order that is still in draft for the request's company and
warehouse absorbs the request, and `none` is returned when there is no such
draft order. -/
def _run_buy (purchases : List PurchaseOrder) (r : StockRequest) :
    Option (List PurchaseOrder) :=
  match purchases with
  | [] => none
  | po :: rest =>
    if po.state = "draft" && po.company_id = r.company_id &&
        po.warehouse_id = r.warehouse_id then
      some (addRequestToPurchase po r :: rest)
    else
      (_run_buy rest r).map fun rest2 => po :: rest2

/-- Set the state of one stock request by id. -/
def setRequestState (requests : List StockRequest) (rid : Nat) (s : String) :
    List StockRequest :=
  requests.map fun r => if r.id = rid then { r with state := s } else r

/-- Modelled from the spec: `action_confirm` of a stock request — the
request moves to `open` and is routed to a purchase order: onto an existing
draft order for its company and warehouse when one exists, otherwise onto a
newly generated draft order with a single line. -/
def action_confirm (st : SrpState) (rid : Nat) : SrpState :=
  match st.requests.find? (fun r => r.id = rid) with
  | none => st
  | some r =>
    let st1 := { st with requests := setRequestState st.requests rid "open" }
    match _run_buy st1.purchases r with
    | some purchases => { st1 with purchases := purchases }
    | none =>
      { st1 with
          purchases := st1.purchases ++
            [{ id := st1.next_purchase_id
               company_id := r.company_id
               warehouse_id := r.warehouse_id
               state := "draft"
               order_line :=
                 [{ product_id := r.product_id
                    product_qty := r.product_uom_qty
                    stock_request_ids := [r.id] }] }]
          next_purchase_id := st1.next_purchase_id + 1 }

/-- The ids of the purchase orders linked to a stock request
(`purchase_ids`). -/
def request_purchase_ids (st : SrpState) (rid : Nat) : List Nat :=
  (st.purchases.filter fun po =>
    po.order_line.any fun l => l.stock_request_ids.contains rid).map
    PurchaseOrder.id

/-- The purchase order lines linked to a stock request
(`purchase_line_ids`). -/
def request_purchase_lines (st : SrpState) (rid : Nat) :
    List PurchaseOrderLine :=
  (st.purchases.map fun po =>
    po.order_line.filter fun l => l.stock_request_ids.contains rid).flatten

/-- The state of the stock request with the given id (`""` when absent). -/
def requestState (st : SrpState) (rid : Nat) : String :=
  match st.requests.find? (fun r => r.id = rid) with
  | none => ""
  | some r => r.state

/-- The state of the purchase order with the given id (`""` when absent). -/
def purchaseState (st : SrpState) (pid : Nat) : String :=
  match st.purchases.find? (fun po => po.id = pid) with
  | none => ""
  | some po => po.state

/-- The state of the stock request order with the given id (`""` when
absent). -/
def orderState (st : SrpState) (oid : Nat) : String :=
  match st.orders.find? (fun o => o.id = oid) with
  | none => ""
  | some o => o.state

/-- Modelled from the spec: after request cancellations, a stock request
order whose requests are now all cancelled moves to `cancel` itself. -/
def refreshOrders (orders : List StockRequestOrder)
    (requests : List StockRequest) : List StockRequestOrder :=
  orders.map fun o =>
    if !o.stock_request_ids.isEmpty &&
        (requests.filter fun r => o.stock_request_ids.contains r.id).all
          (fun r => r.state = "cancel") then
      { o with state := "cancel" }
    else o

/-- Modelled from the spec: `action_cancel` of a stock request — the
request moves to `cancel`, and every purchase order linked to it that is
still in draft moves to `cancel` as well. -/
def action_cancel (st : SrpState) (rid : Nat) : SrpState :=
  let purchases := st.purchases.map fun po =>
    if po.state = "draft" &&
        po.order_line.any (fun l => l.stock_request_ids.contains rid) then
      { po with state := "cancel" }
    else po
  let requests := setRequestState st.requests rid "cancel"
  { st with
      purchases := purchases
      requests := requests
      orders := refreshOrders st.orders requests }

/-- The request ids linked to the line for a given product on a given
purchase order. -/
def lineRequests (st : SrpState) (pid product : Nat) : List Nat :=
  ((st.purchases.filter fun po => po.id = pid).map fun po =>
    ((po.order_line.filter fun l => l.product_id = product).map
      PurchaseOrderLine.stock_request_ids).flatten).flatten

/-- Modelled from the spec: `unlink` of a purchase order line (identified
by its order and product) — the line disappears from its order, the stock
requests linked to it are cancelled, and a stock request order whose
requests are then all cancelled moves to `cancel`. -/
def unlink_order_line (st : SrpState) (pid product : Nat) : SrpState :=
  let cancelled := lineRequests st pid product
  let purchases := st.purchases.map fun po =>
    if po.id = pid then
      { po with order_line := po.order_line.filter fun l =>
          !(l.product_id = product : Bool) }
    else po
  let requests := st.requests.map fun r =>
    if cancelled.contains r.id then { r with state := "cancel" } else r
  { st with
      purchases := purchases
      requests := requests
      orders := refreshOrders st.orders requests }

end StockRequestPurchase

open StockLocationOrderpoint StockRequestPurchase

/-- The destination deficit is never negative. -/
theorem deficitOn_nonneg (qties : Nat → Nat → ProductQty) (loc p : Nat) :
    0 ≤ deficitOn qties loc p :=
  le_max_left 0 _

/-- One quantity computation of the replenishment loop is non-negative and
keeps the cumulative replenished quantity within the destination deficit,
provided the quantity already replenished lies between 0 and that deficit. -/
theorem qty_step_bounds (op : Orderpoint) (p : Nat)
    (qties : Nat → Nat → ProductQty) (already : ℚ)
    (h0 : 0 ≤ already) (h1 : already ≤ deficitOn qties op.location_id p) :
    0 ≤ _get_qty_to_replenish op p qties already ∧
      already + _get_qty_to_replenish op p qties already ≤
        deficitOn qties op.location_id p := by
  unfold _get_qty_to_replenish _get_qty_to_replenish_fill_up
  by_cases hm : op.replenish_method = "fill_up"
  case neg =>
    rw [if_neg hm]
    exact ⟨le_refl 0, by simpa using h1⟩
  rw [if_pos hm]
  cases hs : op.location_src_id with
  | none => exact ⟨le_refl 0, by simpa using h1⟩
  | some src =>
    by_cases hv : 0 ≤ (qties op.location_id p).virtual_available
    · simp only [if_pos hv]
      exact ⟨le_refl 0, by simpa using h1⟩
    · have hvneg : (qties op.location_id p).virtual_available < 0 :=
        lt_of_not_ge hv
      have hdef : deficitOn qties op.location_id p =
          -(qties op.location_id p).virtual_available := by
        unfold deficitOn
        rw [zero_sub, max_eq_right (by linarith)]
      by_cases ha :
          (qties src p).virtual_available - (qties src p).incoming_qty ≤ 0
      · simp only [if_neg hv, if_pos ha]
        exact ⟨le_refl 0, by simpa using h1⟩
      · simp only [if_neg hv, if_neg ha]
        rw [abs_of_neg hvneg]
        rw [hdef] at h1 ⊢
        have hmin :
            min (-(qties op.location_id p).virtual_available - already)
                ((qties src p).virtual_available - (qties src p).incoming_qty) ≤
              -(qties op.location_id p).virtual_available - already :=
          min_le_left _ _
        refine ⟨le_min (by linarith) (by linarith [lt_of_not_ge ha]), by linarith⟩

/-- The inner loop of `_get_qties_to_replenish` preserves the invariant
that every cumulative replenished quantity lies between 0 and the
destination deficit, and records only strictly positive quantities. -/
theorem replenishProducts_bounds (op : Orderpoint)
    (qties : Nat → Nat → ProductQty) (prods : List Nat) (m : Nat → Nat → ℚ)
    (hm : ∀ loc p, 0 ≤ m loc p ∧ m loc p ≤ deficitOn qties loc p) :
    (∀ loc p, 0 ≤ (replenishProducts op qties prods m).1 loc p ∧
        (replenishProducts op qties prods m).1 loc p ≤
          deficitOn qties loc p) ∧
      ∀ pq ∈ (replenishProducts op qties prods m).2, 0 < pq.2 := by
  induction prods generalizing m with
  | nil => exact ⟨hm, by simp [replenishProducts]⟩
  | cons p rest ih =>
    simp only [replenishProducts]
    have hstep := qty_step_bounds op p qties (m op.location_id p)
      (hm op.location_id p).1 (hm op.location_id p).2
    by_cases h : 0 < _get_qty_to_replenish op p qties (m op.location_id p)
    · simp only [if_pos h]
      have hm2 : ∀ loc pp,
          0 ≤ updateReplenished m op.location_id p
              (m op.location_id p +
                _get_qty_to_replenish op p qties (m op.location_id p)) loc pp ∧
            updateReplenished m op.location_id p
                (m op.location_id p +
                  _get_qty_to_replenish op p qties (m op.location_id p)) loc pp ≤
              deficitOn qties loc pp := by
        intro loc pp
        unfold updateReplenished
        by_cases hl : loc = op.location_id
        · subst hl
          by_cases hp : pp = p
          · subst hp
            simp only [if_pos rfl]
            exact ⟨add_nonneg (hm _ _).1 hstep.1, hstep.2⟩
          · simp only [if_pos rfl, if_neg hp]
            exact hm _ _
        · simp only [if_neg hl]
          exact hm _ _
      obtain ⟨ih1, ih2⟩ := ih _ hm2
      refine ⟨ih1, ?_⟩
      intro pq hpq
      rcases List.mem_cons.mp hpq with hpq | hpq
      · rw [hpq]
        exact h
      · exact ih2 pq hpq
    · simp only [if_neg h]
      exact ih m hm

/-- The outer loop of `_get_qties_to_replenish` preserves the
replenished-within-deficit invariant, and every recorded (product,
quantity) pair is strictly positive. -/
theorem replenishLoop_bounds (qties : Nat → Nat → ProductQty)
    (mbl : Nat → Option (List Nat)) (ops : List Orderpoint)
    (m : Nat → Nat → ℚ)
    (hm : ∀ loc p, 0 ≤ m loc p ∧ m loc p ≤ deficitOn qties loc p) :
    (∀ loc p, 0 ≤ (replenishLoop qties mbl ops m).1 loc p ∧
        (replenishLoop qties mbl ops m).1 loc p ≤ deficitOn qties loc p) ∧
      ∀ entry ∈ (replenishLoop qties mbl ops m).2, ∀ pq ∈ entry.2,
        0 < pq.2 := by
  induction ops generalizing m with
  | nil => exact ⟨hm, by simp [replenishLoop]⟩
  | cons op rest ih =>
    simp only [replenishLoop]
    cases hmb : mbl op.location_id with
    | none => exact ih m hm
    | some prods =>
      have hstep := replenishProducts_bounds op qties prods m hm
      have hres := ih (replenishProducts op qties prods m).1 hstep.1
      by_cases he : (replenishProducts op qties prods m).2.isEmpty
      · simp only [if_pos he]
        exact hres
      · simp only [if_neg he]
        refine ⟨hres.1, ?_⟩
        intro entry hent
        rcases List.mem_cons.mp hent with hent | hent
        · intro pq hpq
          rw [hent] at hpq
          exact hstep.2 pq hpq
        · exact hres.2 entry hent

/-- C2: over any run of `_get_qties_to_replenish`, every recorded
(product, quantity) pair is strictly positive; the cumulative quantity
replenished for each (destination location, product) never exceeds the
destination deficit; and each quantity computation, applied to an
already-replenished amount within those bounds, is non-negative. -/
theorem C2_clamp_nonneg (ops : List Orderpoint)
    (qties : Nat → Nat → ProductQty) (mbl : Nat → Option (List Nat)) :
    (∀ op pairs, (op, pairs) ∈ _get_qties_to_replenish ops qties mbl →
        ∀ p q, (p, q) ∈ pairs → 0 < q) ∧
      (∀ loc p, (replenishLoop qties mbl ops fun _ _ => 0).1 loc p ≤
        deficitOn qties loc p) ∧
      ∀ op p already, 0 ≤ already →
        already ≤ deficitOn qties op.location_id p →
          0 ≤ _get_qty_to_replenish op p qties already := by
  have h := replenishLoop_bounds qties mbl ops (fun _ _ => 0)
    (fun loc p => ⟨le_refl 0, deficitOn_nonneg qties loc p⟩)
  exact ⟨fun op pairs hmem p q hpq => h.2 (op, pairs) hmem (p, q) hpq,
    fun loc p => (h.1 loc p).2,
    fun op p already h0 h1 => (qty_step_bounds op p qties already h0 h1).1⟩

/-- An orderpoint all of whose quantity computations are 0 leaves the inner
loop's state unchanged and records nothing. -/
theorem replenishProducts_of_zero (op : Orderpoint)
    (qties : Nat → Nat → ProductQty)
    (hz : ∀ p already, _get_qty_to_replenish op p qties already = 0)
    (prods : List Nat) (m : Nat → Nat → ℚ) :
    replenishProducts op qties prods m = (m, []) := by
  induction prods with
  | nil => rfl
  | cons p rest ih =>
    simp only [replenishProducts, hz, lt_irrefl, if_neg (lt_irrefl (0 : ℚ))]
    exact ih

/-- An orderpoint that records nothing in the inner loop never becomes a
key of `_get_qties_to_replenish`. -/
theorem replenishLoop_no_entry (op : Orderpoint)
    (qties : Nat → Nat → ProductQty) (mbl : Nat → Option (List Nat))
    (hz : ∀ prods m, replenishProducts op qties prods m = (m, []))
    (ops : List Orderpoint) (m : Nat → Nat → ℚ)
    (pairs : List (Nat × ℚ))
    (hmem : (op, pairs) ∈ (replenishLoop qties mbl ops m).2) : False := by
  induction ops generalizing m with
  | nil => simp [replenishLoop] at hmem
  | cons a rest ih =>
    simp only [replenishLoop] at hmem
    revert hmem
    cases hmb : mbl a.location_id with
    | none => exact fun hmem => ih m hmem
    | some prods =>
      by_cases he : (replenishProducts a qties prods m).2.isEmpty
      · simp only [if_pos he]
        exact fun hmem => ih _ hmem
      · simp only [if_neg he]
        intro hmem
        rcases List.mem_cons.mp hmem with heq | hmem
        · have hoa : op = a := congrArg Prod.fst heq
          rw [← hoa, hz prods m] at he
          exact he rfl
        · exact ih _ hmem

/-- C8: an orderpoint whose computed source location is unset, or whose
replenish method is anything other than fill_up, computes a quantity of 0
for every product, quantities dict and already-replenished amount, and
never appears among the keys of `_get_qties_to_replenish`, so it never
generates replenishment procurements. -/
theorem C8_zero_without_source_or_fill_up (op : Orderpoint)
    (h : op.location_src_id = none ∨ op.replenish_method ≠ "fill_up") :
    (∀ p qties already, _get_qty_to_replenish op p qties already = 0) ∧
      ∀ qties mbl ops pairs,
        (op, pairs) ∈ _get_qties_to_replenish ops qties mbl → False := by
  have hz : ∀ (qties : Nat → Nat → ProductQty) (p : Nat) (already : ℚ),
      _get_qty_to_replenish op p qties already = 0 := by
    intro qties p already
    unfold _get_qty_to_replenish _get_qty_to_replenish_fill_up
    rcases h with h | h
    · by_cases hm : op.replenish_method = "fill_up"
      · rw [if_pos hm, h]
      · rw [if_neg hm]
    · rw [if_neg h]
  refine ⟨fun p qties already => hz qties p already, ?_⟩
  intro qties mbl ops pairs hmem
  exact replenishLoop_no_entry op qties mbl
    (fun prods m => replenishProducts_of_zero op qties (hz qties) prods m)
    ops (fun _ _ => 0) pairs hmem

/-- C8 witnessed: an orderpoint without a source location computes 0 over a
destination in deficit. -/
theorem C8_witness :
    _get_qty_to_replenish
        (⟨9, "OP", 0, none, "fill_up", "auto", none, 0, 10⟩ : Orderpoint) 7
        (fun _ _ => ⟨-10, 0⟩) 0 = 0 :=
  (C8_zero_without_source_or_fill_up
      (⟨9, "OP", 0, none, "fill_up", "auto", none, 0, 10⟩ : Orderpoint)
      (Or.inl rfl)).1 7 (fun _ _ => ⟨-10, 0⟩) 0

/-- C9: the constraint check succeeds exactly when every orderpoint either
has no route or has its location among the route's rules' destination
locations; otherwise it raises a `ValidationError`. -/
theorem C9_route_location_constraint (ops : List Orderpoint) :
    _check_location_id_route_id ops = Except.ok () ↔
      ∀ op ∈ ops, op.route_id = none ∨
        ∃ route, op.route_id = some route ∧
          op.location_id ∈ route.rule_ids.map StockRule.location_id := by
  induction ops with
  | nil => simp [_check_location_id_route_id]
  | cons op rest ih =>
    cases hr : op.route_id with
    | none =>
      simp only [_check_location_id_route_id, hr]
      rw [ih]
      constructor
      · intro h a ha
        rcases List.mem_cons.mp ha with rfl | ha
        · exact Or.inl hr
        · exact h a ha
      · intro h a ha
        exact h a (List.mem_cons_of_mem _ ha)
    | some route =>
      simp only [_check_location_id_route_id, hr]
      by_cases hmem :
          op.location_id ∈ route.rule_ids.map StockRule.location_id
      · rw [if_pos hmem, ih]
        constructor
        · intro h a ha
          rcases List.mem_cons.mp ha with rfl | ha
          · exact Or.inr ⟨route, hr, hmem⟩
          · exact h a ha
        · intro h a ha
          exact h a (List.mem_cons_of_mem _ ha)
      · rw [if_neg hmem]
        constructor
        · intro h
          exact absurd h (by simp)
        · intro h
          rcases h op (List.mem_cons_self op rest) with h1 | ⟨route2, hr2, hmem2⟩
          · rw [hr] at h1
            exact absurd h1 (by simp)
          · rw [hr] at hr2
            obtain rfl : route = route2 := Option.some.inj hr2
            exact absurd hmem2 hmem

/-- C10: `run_auto_replenishment` performs no effect at all when the given
products or locations are empty, and `run_replenishment` performs no
procurement run and no move assignment when no procurements were
prepared. -/
theorem C10_empty_runs_are_noop (ops : List Orderpoint) (env : OrmEnv) :
    (∀ products locations location_field,
        products = ([] : List Nat) ∨ locations = ([] : List Nat) →
          run_auto_replenishment ops env products locations location_field =
            []) ∧
      ∀ products, _prepare_procurements ops env products = [] →
        run_replenishment ops env products = [] := by
  constructor
  · intro products locations location_field h
    rcases h with rfl | rfl <;> simp [run_auto_replenishment]
  · intro products h
    simp [run_replenishment, h]

/-- C1 counterexample: at a destination deficit of 10 with 4 available at
the source and nothing already replenished, `_get_qty_to_replenish_fill_up`
returns 4 (the deficit capped by the source availability), while the spec's
stated formula (deficit minus already-replenished minus
available-at-source, clamped to zero) gives 6, so the two disagree. -/
theorem C1_counterexample :
    _get_qty_to_replenish_fill_up
        (⟨9, "OP", 0, some 1, "fill_up", "auto", none, 0, 10⟩ : Orderpoint) 7
        (fun loc _ => if loc = 0 then ⟨-10, 0⟩ else ⟨4, 0⟩) 0 ≠
      spec_fill_up_formula
        (⟨9, "OP", 0, some 1, "fill_up", "auto", none, 0, 10⟩ : Orderpoint) 7
        (fun loc _ => if loc = 0 then ⟨-10, 0⟩ else ⟨4, 0⟩) 0 ∧
    _get_qty_to_replenish_fill_up
        (⟨9, "OP", 0, some 1, "fill_up", "auto", none, 0, 10⟩ : Orderpoint) 7
        (fun loc _ => if loc = 0 then ⟨-10, 0⟩ else ⟨4, 0⟩) 0 = 4 ∧
    spec_fill_up_formula
        (⟨9, "OP", 0, some 1, "fill_up", "auto", none, 0, 10⟩ : Orderpoint) 7
        (fun loc _ => if loc = 0 then ⟨-10, 0⟩ else ⟨4, 0⟩) 0 = 6 := by
  refine ⟨?_, ?_, ?_⟩ <;>
    norm_num [_get_qty_to_replenish_fill_up, spec_fill_up_formula]

/-- C1 (amended): for every fill-up orderpoint with a source location and
every product, the quantity to replenish equals 0 when the destination
forecast is non-negative or the source availability (virtual minus
incoming) is non-positive, and otherwise equals the destination deficit
(target stock level 0 minus the forecast) minus the quantity already
replenished, capped by (not reduced by) the source availability. -/
theorem C1_amended_fill_up_formula (op : Orderpoint) (p : Nat)
    (qties : Nat → Nat → ProductQty) (already : ℚ) (src : Nat)
    (h : op.location_src_id = some src) :
    _get_qty_to_replenish_fill_up op p qties already =
      (if 0 ≤ (qties op.location_id p).virtual_available ∨
          (qties src p).virtual_available - (qties src p).incoming_qty ≤ 0
        then 0
        else
          min ((0 - (qties op.location_id p).virtual_available) - already)
            ((qties src p).virtual_available - (qties src p).incoming_qty)) := by
  unfold _get_qty_to_replenish_fill_up
  rw [h]
  by_cases h1 : 0 ≤ (qties op.location_id p).virtual_available
  · simp [h1]
  · by_cases h2 :
        (qties src p).virtual_available - (qties src p).incoming_qty ≤ 0
    · simp [h1, h2]
    · have hneg : (qties op.location_id p).virtual_available < 0 :=
        lt_of_not_ge h1
      simp [h1, h2, abs_of_neg hneg, zero_sub]

/-- C1 amended, witnessed at the counterexample's input: the code's value
there is the capped deficit 4. -/
theorem C1_amended_witness :
    _get_qty_to_replenish_fill_up
        (⟨9, "OP", 0, some 1, "fill_up", "auto", none, 0, 10⟩ : Orderpoint) 7
        (fun loc _ => if loc = 0 then ⟨-10, 0⟩ else ⟨4, 0⟩) 0 = 4 :=
  (C1_amended_fill_up_formula
      (⟨9, "OP", 0, some 1, "fill_up", "auto", none, 0, 10⟩ : Orderpoint) 7
      (fun loc _ => if loc = 0 then ⟨-10, 0⟩ else ⟨4, 0⟩) 0 1 rfl).trans
    (by norm_num)

/-- C3 counterexample: when the source availability is negative (virtual
-3 minus incoming 2, i.e. -5) and the destination has a deficit,
`_get_qty_to_replenish_fill_up` returns 0, which exceeds the (negative)
available supply at the source, so the returned quantity does not "never
exceed" the available supply as literally stated. -/
theorem C3_counterexample :
    ¬(_get_qty_to_replenish_fill_up
          (⟨9, "OP", 0, some 1, "fill_up", "auto", none, 0, 10⟩ : Orderpoint)
          7 (fun loc _ => if loc = 0 then ⟨-10, 0⟩ else ⟨-3, 2⟩) 0 ≤
        ((fun loc (_ : Nat) => if loc = 0 then (⟨-10, 0⟩ : ProductQty)
            else ⟨-3, 2⟩) 1 7).virtual_available -
          ((fun loc (_ : Nat) => if loc = 0 then (⟨-10, 0⟩ : ProductQty)
              else ⟨-3, 2⟩) 1 7).incoming_qty) := by
  norm_num [_get_qty_to_replenish_fill_up]

/-- C3 (amended): for every fill-up orderpoint with a source location and
every product, the quantity returned by `_get_qty_to_replenish_fill_up`
never exceeds the available supply at the source location (virtual
available minus incoming) clamped below at zero. -/
theorem C3_amended_supply_bound (op : Orderpoint) (p : Nat)
    (qties : Nat → Nat → ProductQty) (already : ℚ) (src : Nat)
    (h : op.location_src_id = some src) :
    _get_qty_to_replenish_fill_up op p qties already ≤
      max 0 ((qties src p).virtual_available - (qties src p).incoming_qty) := by
  unfold _get_qty_to_replenish_fill_up
  rw [h]
  by_cases h1 : 0 ≤ (qties op.location_id p).virtual_available
  · simp [h1]
  · by_cases h2 :
        (qties src p).virtual_available - (qties src p).incoming_qty ≤ 0
    · simp [h1, h2]
    · simp only [if_neg h1, if_neg h2]
      exact le_trans (min_le_right _ _) (le_max_right _ _)

/-- C3 amended, witnessed at the counterexample's input: the returned 0 is
within the clamped supply bound. -/
theorem C3_witness :
    _get_qty_to_replenish_fill_up
        (⟨9, "OP", 0, some 1, "fill_up", "auto", none, 0, 10⟩ : Orderpoint) 7
        (fun loc _ => if loc = 0 then ⟨-10, 0⟩ else ⟨-3, 2⟩) 0 ≤
      max 0
        (((fun loc (_ : Nat) => if loc = 0 then (⟨-10, 0⟩ : ProductQty)
            else ⟨-3, 2⟩) 1 7).virtual_available -
          ((fun loc (_ : Nat) => if loc = 0 then (⟨-10, 0⟩ : ProductQty)
              else ⟨-3, 2⟩) 1 7).incoming_qty) :=
  C3_amended_supply_bound
    (⟨9, "OP", 0, some 1, "fill_up", "auto", none, 0, 10⟩ : Orderpoint) 7
    (fun loc _ => if loc = 0 then ⟨-10, 0⟩ else ⟨-3, 2⟩) 0 1 rfl

/-- C4: for every fill-up orderpoint and every product whose forecast
(virtual available) at the orderpoint's destination location is
non-negative, the computed quantity to replenish is 0. -/
theorem C4_no_replenish_when_forecast_nonneg (op : Orderpoint) (p : Nat)
    (qties : Nat → Nat → ProductQty) (already : ℚ)
    (hm : op.replenish_method = "fill_up")
    (hv : 0 ≤ (qties op.location_id p).virtual_available) :
    _get_qty_to_replenish op p qties already = 0 := by
  unfold _get_qty_to_replenish _get_qty_to_replenish_fill_up
  rw [if_pos hm]
  cases hs : op.location_src_id with
  | none => rfl
  | some src => simp [hv]

/-- C5: confirming two stock requests (ids 1 and 2) for the same product,
warehouse and location one after the other, while the purchase order
generated for the first (id 100) is still in draft, links both requests to
that same single purchase order and to the same single purchase order line,
whose quantity is the sum of the two requested quantities. -/
theorem C5_two_requests_one_purchase_line (q1 q2 : ℚ) :
    let st0 : SrpState :=
      ⟨[⟨1, 6, 3, 4, 5, q1, "draft", none⟩, ⟨2, 6, 3, 4, 5, q2, "draft", none⟩],
        [], [], 100⟩
    let st1 := action_confirm st0 1
    let st2 := action_confirm st1 2
    purchaseState st1 100 = "draft" ∧
      request_purchase_ids st2 1 = [100] ∧
      request_purchase_ids st2 2 = [100] ∧
      request_purchase_lines st2 1 = [⟨6, q1 + q2, [1, 2]⟩] ∧
      request_purchase_lines st2 2 = [⟨6, q1 + q2, [1, 2]⟩] := by
  simp [action_confirm, _run_buy, addRequestToPurchase, setRequestState,
    purchaseState, request_purchase_ids, request_purchase_lines]

/-- C6: deleting the purchase order line of product 11, linked to confirmed
stock request 1, cancels exactly that request — request 2 stays open and
the stock request order 50 stays open while the line of product 22 remains
— and deleting that last linked line cancels request 2 and moves the stock
request order itself to cancelled. -/
theorem C6_unlink_line_cancels_requests (q1 q2 : ℚ) :
    let st0 : SrpState :=
      ⟨[⟨1, 11, 3, 4, 5, q1, "draft", some 50⟩,
        ⟨2, 22, 3, 4, 5, q2, "draft", some 50⟩],
        [], [⟨50, "open", [1, 2]⟩], 100⟩
    let stc := action_confirm (action_confirm st0 1) 2
    let u1 := unlink_order_line stc 100 11
    let u2 := unlink_order_line u1 100 22
    requestState u1 1 = "cancel" ∧
      requestState u1 2 = "open" ∧
      orderState u1 50 = "open" ∧
      lineRequests u1 100 22 = [2] ∧
      requestState u2 2 = "cancel" ∧
      orderState u2 50 = "cancel" := by
  simp [action_confirm, _run_buy, addRequestToPurchase, setRequestState,
    unlink_order_line, lineRequests, refreshOrders, requestState, orderState]

/-- C7: cancelling a confirmed stock request whose generated purchase order
(id 100) is still in the draft state moves that purchase order to the
cancelled state, for any product, company, warehouse, location and
quantity. -/
theorem C7_cancel_request_cancels_draft_purchase (c wh loc p : Nat) (q : ℚ) :
    let st0 : SrpState := ⟨[⟨1, p, c, wh, loc, q, "draft", none⟩], [], [], 100⟩
    let st1 := action_confirm st0 1
    purchaseState st1 100 = "draft" ∧
      requestState st1 1 = "open" ∧
      purchaseState (action_cancel st1 1) 100 = "cancel" ∧
      requestState (action_cancel st1 1) 1 = "cancel" := by
  simp [action_confirm, action_cancel, _run_buy, setRequestState,
    refreshOrders, purchaseState, requestState]

/-- C4 witnessed: a fill-up orderpoint over a destination with forecast 3
replenishes nothing. -/
theorem C4_witness :
    _get_qty_to_replenish
        (⟨9, "OP", 0, some 1, "fill_up", "auto", none, 0, 10⟩ : Orderpoint) 7
        (fun _ _ => ⟨3, 0⟩) 0 = 0 :=
  C4_no_replenish_when_forecast_nonneg
    (⟨9, "OP", 0, some 1, "fill_up", "auto", none, 0, 10⟩ : Orderpoint) 7
    (fun _ _ => ⟨3, 0⟩) 0 rfl (by norm_num)
